import Mathlib

/-!
Verification development for the SiteDetector repository.

The definitions below are shallow embeddings of the TypeScript source:
pure string manipulation is translated to Lean functions on strings and
character lists, the stateful notification gateway and scheduler are
modelled by explicit state passing, and the bump convergence loop is
modelled as a fuel-indexed recursion driven by a stream of environment
observations (one observation per loop iteration).
-/

namespace SiteDetector

/-! ## Character and string helpers

JavaScript primitives used by the source, reimplemented over character
lists so that concrete evaluation reduces well in the kernel.
-/

/-- Whitespace test used to model the JS regular expression class for
whitespace and the trim operation (ASCII subset, which covers all inputs
appearing in the repository and in the claims). -/
def isWs (c : Char) : Bool :=
  c = ' ' || c = '\t' || c = '\n' || c = '\r'

/-- Model of the JS string trim: drop leading and trailing whitespace. -/
def jsTrim (s : String) : String :=
  String.mk (((s.toList.dropWhile isWs).reverse.dropWhile isWs).reverse)

/-- Model of the JS toLowerCase for the ASCII strings used as topics. -/
def lowerStr (s : String) : String :=
  String.mk (s.toList.map Char.toLower)

/-- Collapse every maximal run of whitespace into a single space
(the JS replace of a whitespace-run regular expression by one space).
The boolean flag records whether the previous character was whitespace. -/
def collapseWsAux : List Char → Bool → List Char
  | [], _ => []
  | c :: rest, prev =>
    if isWs c then
      if prev then collapseWsAux rest true
      else ' ' :: collapseWsAux rest true
    else c :: collapseWsAux rest false

/-! ## Phone normalization, from src/utils/utils.ts -/

/-- Embedding of normalizePhone from src/utils/utils.ts: keep digits only,
drop a leading 00, turn a leading 380 into a leading 0 (dropping 38),
else turn a leading 80 into a leading 0. -/
def normalizePhone (raw : String) : String :=
  let digits := raw.toList.filter Char.isDigit
  let digits := if digits.take 2 = ['0', '0'] then digits.drop 2 else digits
  let digits :=
    if digits.take 3 = ['3', '8', '0'] then digits.drop 2
    else if digits.take 2 = ['8', '0'] then '0' :: digits.drop 2
    else digits
  String.mk digits

/-! ## Phone normalization, from src/utils/normalize.ts -/

/-- Full-anchored match of the pattern: optional plus, then 38, then a
capture of 0 followed by nine digits; returns the capture on success.
Models the first anchored replace in normalize.ts. -/
def matchIntl (l : List Char) : Option (List Char) :=
  let core : List Char → Option (List Char) := fun m =>
    match m with
    | '3' :: '8' :: rest =>
      if rest.length = 10 && rest.take 1 = ['0'] && rest.all Char.isDigit then
        some rest
      else none
    | _ => none
  match l with
  | '+' :: rest => core rest
  | _ => core l

/-- Full-anchored match of the pattern: 0 followed by nine digits.
Models the second anchored replace in normalize.ts. -/
def matchLocal (l : List Char) : Bool :=
  l.length = 10 && l.take 1 = ['0'] && l.all Char.isDigit

/-- Embedding of normalizePhone from src/utils/normalize.ts: strip every
character that is not a digit or a plus, then rewrite an
international-form match to a plus-38 form, then rewrite a ten-digit
local-form match to the same plus-38 form. -/
def normalizePhoneCanon (input : String) : String :=
  let kept := input.toList.filter (fun c => c.isDigit || c = '+')
  let kept :=
    match matchIntl kept with
    | some core => '+' :: '3' :: '8' :: core
    | none => kept
  let kept :=
    if matchLocal kept then '+' :: '3' :: '8' :: kept
    else kept
  String.mk kept

/-! ## Monitor phone matching, from src/monitor.ts (checkTopByPhone) -/

/-- Substring containment (the JS includes): the needle occurs as a
contiguous run inside the haystack. -/
def containsSub (hay needle : List Char) : Bool :=
  if needle.isPrefixOf hay then true
  else
    match hay with
    | [] => false
    | _ :: t => containsSub t needle

/-- The per-pair match test from the inner loop of checkTopByPhone: both
strings nonempty (JS truthiness) and one contains the other as a
substring (JS includes, in either direction). -/
def phonePairMatches (got mine : String) : Bool :=
  got != "" && mine != "" &&
    (containsSub got.toList mine.toList || containsSub mine.toList got.toList)

/-- The double loop from checkTopByPhone: scan extracted numbers in order
and, for each, scan roster numbers in order; the first successful pair
breaks out of both loops, and the matched value is the roster number. -/
def findMatch : List String → List String → Option String
  | [], _ => none
  | got :: rest, myDigits =>
    match myDigits.find? (fun mine => phonePairMatches got mine) with
    | some mine => some mine
    | none => findMatch rest myDigits

/-- Result of the matching step of checkTopByPhone. -/
structure PhoneCheckResult where
  ok : Bool
  foundPhone : Option String
deriving DecidableEq, Repr

/-- Embedding of the matching step at the end of checkTopByPhone:
normalize the extracted phone texts and the roster, drop empties, search
for a containment match; on success report ok with the matched roster
number, otherwise report not-ok with the first extracted number. -/
def checkTopByPhoneMatch (phoneTexts myPhones : List String) : PhoneCheckResult :=
  let extracted := (phoneTexts.map normalizePhone).filter (fun s => s != "")
  let myDigits := (myPhones.map normalizePhone).filter (fun s => s != "")
  match findMatch extracted myDigits with
  | some mine => ⟨true, some mine⟩
  | none => ⟨false, extracted.head?⟩

/-! ## Bump convergence loop, from the bump registry (bumpProcess)

The loop interacts with the page through safeCount, clickNth and
waitAfterClickAndCount. Each pass of the while loop observes the
environment; an observation stream (one entry per iteration number)
drives the embedding. The variant with a press limit subsumes the
variant without one (an absent limit models the missing maxClicks).
-/

/-- Outcome of the try block of one press, as seen by the loop:
the click reported true; the click reported false (element missing at
that index); a throw escaping from clickNth before any click counted;
or a throw after the click was counted (from the settle wait). -/
inductive ClickOut
  | ok
  | miss
  | errEarly
  | errLate
deriving DecidableEq, Repr

/-- One iteration's environment observations: whether the page path
differed from the target at the top of the pass, the recount obtained
after restoring the path, the press outcome, and the settled count
reported by waitAfterClickAndCount after a counted press. -/
structure IterObs where
  pathDiffers : Bool
  recount : Nat
  click : ClickOut
  newCount : Nat
deriving Repr

/-- Result of a bumpProcess run: the number of counted presses, the
trace of clickNth calls as pairs of pressed index and the most recently
observed count at the moment of the call, and the number of executed
loop iterations. -/
structure BumpResult where
  clicked : Nat
  presses : List (Nat × Nat)
  iters : Nat
deriving DecidableEq, Repr

/-- The press budget: a positive maxClicks bounds the run, any other
value means no bound (Infinity in the source). -/
def maxAllowedOf (maxClicks : Option Nat) : Option Nat :=
  match maxClicks with
  | some m => if 0 < m then some m else none
  | none => none

/-- The loop guard clause comparing counted presses to the press budget. -/
def underMax (ma : Option Nat) (clicked : Nat) : Bool :=
  match ma with
  | some m => clicked < m
  | none => true

/-- The while loop of bumpProcess. The fuel argument is the remaining
iteration budget (maxIterations minus the iteration counter), so one
unit of fuel is consumed exactly once per pass; the k argument is the
index into the observation stream. Mirrors, in order: the loop guard,
the path-restore branch with its recount and early exits, the
index-bound check, clickNth, and the post-press settle logic that
resets or advances the index and clamps it against the new count. -/
def bumpLoop (obs : Nat → IterObs) (ma : Option Nat) :
    Nat → Nat → Nat → Nat → Nat → BumpResult
  | 0, _, clicked, _, _ => ⟨clicked, [], 0⟩
  | fuel + 1, prevCount, clicked, idx, k =>
    if prevCount = 0 then ⟨clicked, [], 0⟩
    else if underMax ma clicked = false then ⟨clicked, [], 0⟩
    else
      let o := obs k
      let pc := if o.pathDiffers then o.recount else prevCount
      if o.pathDiffers ∧ (o.recount = 0 ∨ o.recount ≤ idx) then ⟨clicked, [], 1⟩
      else if pc ≤ idx then ⟨clicked, [], 1⟩
      else
        match o.click with
        | ClickOut.miss =>
          let r := bumpLoop obs ma fuel pc clicked (idx + 1) (k + 1)
          ⟨r.clicked, (idx, pc) :: r.presses, r.iters + 1⟩
        | ClickOut.errEarly =>
          let r := bumpLoop obs ma fuel pc clicked (idx + 1) (k + 1)
          ⟨r.clicked, (idx, pc) :: r.presses, r.iters + 1⟩
        | ClickOut.errLate =>
          let r := bumpLoop obs ma fuel pc (clicked + 1) (idx + 1) (k + 1)
          ⟨r.clicked, (idx, pc) :: r.presses, r.iters + 1⟩
        | ClickOut.ok =>
          if o.newCount = 0 then ⟨clicked + 1, [(idx, pc)], 1⟩
          else
            let idx2 := if o.newCount < pc then 0 else idx + 1
            if o.newCount ≤ idx2 then ⟨clicked + 1, [(idx, pc)], 1⟩
            else if underMax ma (clicked + 1) = false then ⟨clicked + 1, [(idx, pc)], 1⟩
            else
              let r := bumpLoop obs ma fuel o.newCount (clicked + 1) idx2 (k + 1)
              ⟨r.clicked, (idx, pc) :: r.presses, r.iters + 1⟩

/-- Message carried by the SelectorNotFoundError thrown before the loop. -/
def selectorNotFoundMsg : String := "SelectorNotFoundError (stage bump)"

/-- Embedding of bumpProcess: take the initial count; when it is zero
throw SelectorNotFoundError, otherwise run the convergence loop with
iteration budget initialCount plus two, starting at index zero. -/
def bumpProcess (obs : Nat → IterObs) (maxClicks : Option Nat)
    (initialCount : Nat) : Except String BumpResult :=
  if initialCount = 0 then Except.error selectorNotFoundMsg
  else Except.ok (bumpLoop obs (maxAllowedOf maxClicks) (initialCount + 2) initialCount 0 0 0)

/-- Indices pressed during a run, in order. -/
def pressedIdxs (r : BumpResult) : List Nat :=
  r.presses.map Prod.fst

/-! ## Association-list helpers

The source keeps its caches in JS Map objects; they are modelled as
association lists with the Map get, set and delete operations.
-/

/-- Map set: overwrite the entry for the key, or append a new entry. -/
def setKey {α : Type} (k : String) (v : α) : List (String × α) → List (String × α)
  | [] => [(k, v)]
  | (k', v') :: rest => if k' = k then (k, v) :: rest else (k', v') :: setKey k v rest

/-- Map delete: remove the entry for the key (a JS Map holds at most one
entry per key, so dropping every pair with this key models delete). -/
def eraseKey {α : Type} (k : String) : List (String × α) → List (String × α)
  | [] => []
  | (k', v') :: rest => if k' = k then eraseKey k rest else (k', v') :: eraseKey k rest

/-! ## Notification gateway, from the telegram module (sendSiteMessage)

This embeds the current sendSiteMessage: the silent and configured
guards, the purge of stored informational message ids on an Alert or
Error, the two-hour duplicate suppression keyed by site and topic, the
delivery, and the recording of the sent text and of informational
message ids. Delivery and retraction are recorded as outcome data
instead of performing transport calls.
-/

/-- Severity of an outgoing message. -/
inductive MessageType
  | Info
  | Alert
  | Error
  | Unknown
deriving DecidableEq, Repr

/-- The option bag of sendSiteMessage; only the fields with semantic
effect plus the display-affecting ones are kept. -/
structure SiteMessageOptions where
  force : Bool := false
  silent : Bool := false
  prefixText : Option String := none
  header : Bool := true
deriving Repr

/-- Mutable module state of the telegram gateway: the last normalized
text and send time per site-topic key, and the informational message
ids per site id. -/
structure TgState where
  lastByKey : List (String × (String × Nat))
  infoIdsBySiteId : List (String × List Nat)
deriving DecidableEq, Repr

/-- The two-hour duplicate-suppression window, in milliseconds. -/
def DUPLICATE_COOLDOWN_MS : Nat := 2 * 60 * 60 * 1000

/-- The site-topic cache key: trimmed site id, a double colon, and the
trimmed lowercased topic (an absent topic behaves as the empty string). -/
def keyOf (siteId : String) (topic : Option String) : String :=
  jsTrim siteId ++ "::" ++ lowerStr (jsTrim (topic.getD ""))

/-- Whitespace-collapsed, trimmed message text used for deduplication. -/
def normalizeText (s : String) : String :=
  jsTrim (String.mk (collapseWsAux s.toList false))

/-- The purge step: on an Alert or Error, attempt deletion of every
stored informational message id for the site and drop the site's entry;
on any other severity, or when no nonempty list is stored, do nothing.
Returns the updated state and the ids whose deletion was attempted. -/
def purgeInfoIds (st : TgState) (siteId : String) (isAE : Bool) :
    TgState × List Nat :=
  if isAE then
    match List.lookup siteId st.infoIdsBySiteId with
    | some ids =>
      if ids.isEmpty then (st, [])
      else ({ st with infoIdsBySiteId := eraseKey siteId st.infoIdsBySiteId }, ids)
    | none => (st, [])
  else (st, [])

/-- The duplicate test: unless forced, the stored text for the key must
differ from the new normalized text, or the stored send time must be
outside the cooldown window with the new message not informational. -/
def isDuplicate (st : TgState) (k normalized : String) (messageType : MessageType)
    (force : Bool) (now : Nat) : Bool :=
  if force then false
  else
    match List.lookup k st.lastByKey with
    | some (lastText, lastSentAt) =>
      lastText == normalized &&
        (decide (now - lastSentAt < DUPLICATE_COOLDOWN_MS) || messageType == MessageType.Info)
    | none => false

/-- After a delivery: record the normalized text with the send time
under the site-topic key and, for an informational message, append the
delivered message id to the site's informational list. -/
def recordSend (st : TgState) (siteId k normalized : String)
    (messageType : MessageType) (now msgId : Nat) : TgState :=
  let st2 : TgState := { st with lastByKey := setKey k (normalized, now) st.lastByKey }
  if messageType == MessageType.Info then
    let ids := ((List.lookup siteId st2.infoIdsBySiteId).getD []) ++ [msgId]
    { st2 with infoIdsBySiteId := setKey siteId ids st2.infoIdsBySiteId }
  else st2

/-- The optional header shown before the text: the bracketed site id and
the trimmed topic when nonempty, joined by a space. -/
def headerTextOf (siteId : String) (topic : Option String) (header : Bool) : String :=
  if header then
    String.intercalate " "
      (List.filter (fun s => s != "")
        [if siteId != "" then "[" ++ siteId ++ "]" else "", jsTrim (topic.getD "")])
  else ""

/-- The delivered display text: prefix, header and raw text joined by
spaces with empties dropped, then trimmed. -/
def displayOf (siteId : String) (topic : Option String) (text : String)
    (opts : SiteMessageOptions) : String :=
  jsTrim (String.intercalate " "
    (List.filter (fun s => s != "")
      [opts.prefixText.getD "", headerTextOf siteId topic opts.header, text]))

/-- Outcome of one sendSiteMessage call: the returned boolean, the new
gateway state, the delivered message id if a delivery happened, the ids
whose retraction was attempted, and the delivered display text. -/
structure SendOutcome where
  sent : Bool
  state : TgState
  delivered : Option Nat
  deleted : List Nat
  shown : Option String
deriving Repr

/-- Embedding of sendSiteMessage. The configured flag models the bot and
chat id being available; now models the clock readings and msgId the
message id returned by the transport on delivery. -/
def sendSiteMessage (configured : Bool) (st : TgState) (siteId : String)
    (topic : Option String) (text : String) (opts : SiteMessageOptions)
    (messageType : MessageType) (now msgId : Nat) : SendOutcome :=
  if opts.silent then ⟨false, st, none, [], none⟩
  else if configured = false then ⟨false, st, none, [], none⟩
  else
    let k := keyOf siteId topic
    let normalized := normalizeText text
    let isAE := messageType == MessageType.Alert || messageType == MessageType.Error
    let pd := purgeInfoIds st siteId isAE
    if isDuplicate pd.1 k normalized messageType opts.force now then
      ⟨false, pd.1, none, pd.2, none⟩
    else
      ⟨true, recordSend pd.1 siteId k normalized messageType now msgId,
        some msgId, pd.2, some (displayOf siteId topic text opts)⟩

/-! ## Per-site scheduler, from the entry module (schedule and tick)

The persisted latch store is the notified mapping of the state file;
the outcome of the site work (the monitor check or the bump run) is an
input to the embedded tick, and the messages the tick hands to the
notification gateway are recorded as tagged events.
-/

/-- The persisted latch store: key to already-alerted flag. -/
abbrev NotifState : Type := List (String × Bool)

/-- Reading a latch: an absent key behaves as false. -/
def getFlag (st : NotifState) (k : String) : Bool :=
  (List.lookup k st).getD false

/-- markOnce: when the latch is unset, set it and report that a
notification may be sent; otherwise report suppression. -/
def markOnce (st : NotifState) (k : String) : NotifState × Bool :=
  if getFlag st k then (st, false) else (setKey k true st, true)

/-- clearMark: reset the latch to false when it is currently set. -/
def clearMark (st : NotifState) (k : String) : NotifState :=
  if getFlag st k then setKey k false st else st

/-- The two kinds of scheduled site. -/
inductive SiteKind
  | monitor
  | bump
deriving DecidableEq, Repr

/-- Outcome of the tick's site work: a normal return (for a monitor,
with the position-check verdict), a SelectorNotFoundError, or any other
exception. -/
inductive WorkResult
  | ok (posOk : Bool)
  | selectorFail
  | otherFail
deriving DecidableEq, Repr

/-- The messages a tick hands to the notification gateway, tagged. -/
inductive TickMsg
  | badCfgAlert
  | selectorAlert
  | recoveryNotice
  | checkOk
  | checkLost
  | bumpReport
  | errorAlert
deriving DecidableEq, Repr

/-- The selector-failure latch key for a site. -/
def selKey (siteId : String) : String := siteId ++ ":selector"

/-- The invalid-configuration latch key for a site. -/
def badKey (siteId : String) : String := siteId ++ ":badcfg"

/-- The generic-error latch key for a site. -/
def errKey (siteId : String) : String := siteId ++ ":error"

/-- Embedding of one scheduler tick. Validation comes first (an invalid
configuration latch-alerts once and skips the work, a valid one clears
that latch). For a monitor site the work runs, then an active
selector latch is cleared with a recovery notice, then the position
verdict is reported; for a bump site a successful run only reports the
bump summary. A SelectorNotFoundError latch-alerts once on the selector
key; any other exception latch-alerts once on the error key. -/
def tick (siteId : String) (kind : SiteKind) (validCfg : Bool)
    (st : NotifState) (w : WorkResult) : NotifState × List TickMsg :=
  if validCfg = false then
    match markOnce st (badKey siteId) with
    | (st', true) => (st', [TickMsg.badCfgAlert])
    | (st', false) => (st', [])
  else
    let st1 := clearMark st (badKey siteId)
    match kind, w with
    | SiteKind.monitor, WorkResult.ok posOk =>
      let recov :=
        if getFlag st1 (selKey siteId) then
          (clearMark st1 (selKey siteId), [TickMsg.recoveryNotice])
        else (st1, ([] : List TickMsg))
      (recov.1, recov.2 ++ [if posOk then TickMsg.checkOk else TickMsg.checkLost])
    | SiteKind.bump, WorkResult.ok _ => (st1, [TickMsg.bumpReport])
    | _, WorkResult.selectorFail =>
      match markOnce st1 (selKey siteId) with
      | (st', true) => (st', [TickMsg.selectorAlert])
      | (st', false) => (st', [])
    | _, WorkResult.otherFail =>
      match markOnce st1 (errKey siteId) with
      | (st', true) => (st', [TickMsg.errorAlert])
      | (st', false) => (st', [])

/-! ## Browser resource pool, from the puppeteer module (getBrowser)

Between its entry and the assignment of the launch promise, getBrowser
performs no await, so on the JS event loop that prefix of each call runs
atomically; N concurrent calls therefore execute their prefixes in some
sequential order. One acquisition step embeds that synchronous prefix:
return the live browser, else join an in-flight launch, else start a
new launch.
-/

/-- A pool record for one site id: whether the stored browser is alive
and whether a launch promise is in flight. -/
structure PoolRec where
  alive : Bool
  launchInFlight : Bool
deriving DecidableEq, Repr

/-- The pool state for one site id plus a count of launches started. -/
structure PoolState where
  record : Option PoolRec
  launches : Nat
deriving DecidableEq, Repr

/-- The synchronous prefix of one getBrowser call: create the record if
missing; a live browser or an in-flight launch is returned as is; an
otherwise dead record starts exactly one new launch. -/
def getBrowserAcquire (s : PoolState) : PoolState :=
  let r := s.record.getD ⟨false, false⟩
  if r.alive then { s with record := some r }
  else if r.launchInFlight then { s with record := some r }
  else { record := some ⟨r.alive, true⟩, launches := s.launches + 1 }

/-! ## Association-list lemmas -/

theorem lookup_setKey_self {α : Type} (k : String) (v : α) :
    ∀ m : List (String × α), List.lookup k (setKey k v m) = some v := by
  intro m
  induction m with
  | nil => simp [setKey, List.lookup]
  | cons h t ih =>
    obtain ⟨k', v'⟩ := h
    by_cases hk : k' = k
    · subst hk
      simp [setKey, List.lookup]
    · have hb : (k == k') = false := by
        simp only [beq_eq_false_iff_ne, ne_eq]
        exact fun hkk => hk hkk.symm
      simp [setKey, hk, List.lookup, hb, ih]

theorem lookup_setKey_ne {α : Type} (k k' : String) (v : α) (hne : k' ≠ k) :
    ∀ m : List (String × α), List.lookup k' (setKey k v m) = List.lookup k' m := by
  intro m
  have hb : (k' == k) = false := by
    simp only [beq_eq_false_iff_ne, ne_eq]
    exact hne
  induction m with
  | nil => simp [setKey, List.lookup, hb]
  | cons h t ih =>
    obtain ⟨k0, v0⟩ := h
    by_cases hk : k0 = k
    · subst hk
      simp [setKey, List.lookup, hb]
    · simp [setKey, hk, List.lookup, ih]

theorem lookup_eraseKey_self {α : Type} (k : String) :
    ∀ m : List (String × α), List.lookup k (eraseKey k m) = none := by
  intro m
  induction m with
  | nil => simp [eraseKey, List.lookup]
  | cons h t ih =>
    obtain ⟨k0, v0⟩ := h
    by_cases hk : k0 = k
    · subst hk
      simp [eraseKey, List.lookup, ih]
    · have hb : (k == k0) = false := by
        simp only [beq_eq_false_iff_ne, ne_eq]
        exact fun hkk => hk hkk.symm
      simp [eraseKey, hk, List.lookup, hb, ih]

/-! ## Properties of the bump convergence loop -/

theorem bumpLoop_iters_le_fuel (obs : Nat → IterObs) (ma : Option Nat) :
    ∀ fuel prevCount clicked idx k,
      (bumpLoop obs ma fuel prevCount clicked idx k).iters ≤ fuel := by
  intro fuel
  induction fuel with
  | zero => intro p c i k; simp [bumpLoop]
  | succ n ih =>
    intro p c i k
    by_cases h1 : p = 0
    · simp [bumpLoop, h1]
    by_cases h2 : underMax ma c = false
    · simp [bumpLoop, h1, h2]
    by_cases hpd : (obs k).pathDiffers = true
    · by_cases hbrk : (obs k).recount = 0 ∨ (obs k).recount ≤ i
      · simp [bumpLoop, h1, h2, hpd, hbrk]
      · have hni0 : ¬((obs k).recount = 0) := fun h => hbrk (Or.inl h)
        have hni : ¬((obs k).recount ≤ i) := fun h => hbrk (Or.inr h)
        cases hcl : (obs k).click with
        | ok =>
          by_cases hz : (obs k).newCount = 0
          · simp [bumpLoop, h1, h2, hpd, hbrk, hni0, hni, hcl, hz]
          · by_cases hdec : (obs k).newCount < (obs k).recount
            · by_cases hbud : underMax ma (c + 1) = false
              · simp [bumpLoop, h1, h2, hpd, hbrk, hni0, hni, hcl, hz, hdec, hbud]
              · have := ih (obs k).newCount (c + 1) 0 (k + 1)
                simp [bumpLoop, h1, h2, hpd, hbrk, hni0, hni, hcl, hz, hdec, hbud]
                omega
            · by_cases hcla : (obs k).newCount ≤ i + 1
              · simp [bumpLoop, h1, h2, hpd, hbrk, hni0, hni, hcl, hz, hdec, hcla]
              · by_cases hbud : underMax ma (c + 1) = false
                · simp [bumpLoop, h1, h2, hpd, hbrk, hni0, hni, hcl, hz, hdec, hcla, hbud]
                · have := ih (obs k).newCount (c + 1) (i + 1) (k + 1)
                  simp [bumpLoop, h1, h2, hpd, hbrk, hni0, hni, hcl, hz, hdec, hcla, hbud]
                  omega
        | miss =>
          have := ih (obs k).recount c (i + 1) (k + 1)
          simp [bumpLoop, h1, h2, hpd, hbrk, hni0, hni, hcl]
          omega
        | errEarly =>
          have := ih (obs k).recount c (i + 1) (k + 1)
          simp [bumpLoop, h1, h2, hpd, hbrk, hni0, hni, hcl]
          omega
        | errLate =>
          have := ih (obs k).recount (c + 1) (i + 1) (k + 1)
          simp [bumpLoop, h1, h2, hpd, hbrk, hni0, hni, hcl]
          omega
    · by_cases hbrk : p ≤ i
      · simp [bumpLoop, h1, h2, hpd, hbrk]
      · cases hcl : (obs k).click with
        | ok =>
          by_cases hz : (obs k).newCount = 0
          · simp [bumpLoop, h1, h2, hpd, hbrk, hcl, hz]
          · by_cases hdec : (obs k).newCount < p
            · by_cases hbud : underMax ma (c + 1) = false
              · simp [bumpLoop, h1, h2, hpd, hbrk, hcl, hz, hdec, hbud]
              · have := ih (obs k).newCount (c + 1) 0 (k + 1)
                simp [bumpLoop, h1, h2, hpd, hbrk, hcl, hz, hdec, hbud]
                omega
            · by_cases hcla : (obs k).newCount ≤ i + 1
              · simp [bumpLoop, h1, h2, hpd, hbrk, hcl, hz, hdec, hcla]
              · by_cases hbud : underMax ma (c + 1) = false
                · simp [bumpLoop, h1, h2, hpd, hbrk, hcl, hz, hdec, hcla, hbud]
                · have := ih (obs k).newCount (c + 1) (i + 1) (k + 1)
                  simp [bumpLoop, h1, h2, hpd, hbrk, hcl, hz, hdec, hcla, hbud]
                  omega
        | miss =>
          have := ih p c (i + 1) (k + 1)
          simp [bumpLoop, h1, h2, hpd, hbrk, hcl]
          omega
        | errEarly =>
          have := ih p c (i + 1) (k + 1)
          simp [bumpLoop, h1, h2, hpd, hbrk, hcl]
          omega
        | errLate =>
          have := ih p (c + 1) (i + 1) (k + 1)
          simp [bumpLoop, h1, h2, hpd, hbrk, hcl]
          omega

theorem bumpLoop_press_lt (obs : Nat → IterObs) (ma : Option Nat) :
    ∀ fuel prevCount clicked idx k q,
      q ∈ (bumpLoop obs ma fuel prevCount clicked idx k).presses → q.1 < q.2 := by
  intro fuel
  induction fuel with
  | zero => intro p c i k q hq; simp [bumpLoop] at hq
  | succ n ih =>
    intro p c i k q hq
    by_cases h1 : p = 0
    · simp [bumpLoop, h1] at hq
    by_cases h2 : underMax ma c = false
    · simp [bumpLoop, h1, h2] at hq
    by_cases hpd : (obs k).pathDiffers = true
    · by_cases hbrk : (obs k).recount = 0 ∨ (obs k).recount ≤ i
      · simp [bumpLoop, h1, h2, hpd, hbrk] at hq
      · have hni0 : ¬((obs k).recount = 0) := fun h => hbrk (Or.inl h)
        have hni : ¬((obs k).recount ≤ i) := fun h => hbrk (Or.inr h)
        cases hcl : (obs k).click with
        | ok =>
          by_cases hz : (obs k).newCount = 0
          · simp [bumpLoop, h1, h2, hpd, hbrk, hni0, hni, hcl, hz] at hq
            subst hq
            simp
            omega
          · by_cases hdec : (obs k).newCount < (obs k).recount
            · by_cases hbud : underMax ma (c + 1) = false
              · simp [bumpLoop, h1, h2, hpd, hbrk, hni0, hni, hcl, hz, hdec, hbud] at hq
                subst hq
                simp
                omega
              · simp [bumpLoop, h1, h2, hpd, hbrk, hni0, hni, hcl, hz, hdec, hbud] at hq
                rcases hq with hq | hq
                · subst hq
                  simp
                  omega
                · exact ih _ _ _ _ _ hq
            · by_cases hcla : (obs k).newCount ≤ i + 1
              · simp [bumpLoop, h1, h2, hpd, hbrk, hni0, hni, hcl, hz, hdec, hcla] at hq
                subst hq
                simp
                omega
              · by_cases hbud : underMax ma (c + 1) = false
                · simp [bumpLoop, h1, h2, hpd, hbrk, hni0, hni, hcl, hz, hdec, hcla, hbud] at hq
                  subst hq
                  simp
                  omega
                · simp [bumpLoop, h1, h2, hpd, hbrk, hni0, hni, hcl, hz, hdec, hcla, hbud] at hq
                  rcases hq with hq | hq
                  · subst hq
                    simp
                    omega
                  · exact ih _ _ _ _ _ hq
        | miss =>
          simp [bumpLoop, h1, h2, hpd, hbrk, hni0, hni, hcl] at hq
          rcases hq with hq | hq
          · subst hq
            simp
            omega
          · exact ih _ _ _ _ _ hq
        | errEarly =>
          simp [bumpLoop, h1, h2, hpd, hbrk, hni0, hni, hcl] at hq
          rcases hq with hq | hq
          · subst hq
            simp
            omega
          · exact ih _ _ _ _ _ hq
        | errLate =>
          simp [bumpLoop, h1, h2, hpd, hbrk, hni0, hni, hcl] at hq
          rcases hq with hq | hq
          · subst hq
            simp
            omega
          · exact ih _ _ _ _ _ hq
    · by_cases hbrk : p ≤ i
      · simp [bumpLoop, h1, h2, hpd, hbrk] at hq
      · cases hcl : (obs k).click with
        | ok =>
          by_cases hz : (obs k).newCount = 0
          · simp [bumpLoop, h1, h2, hpd, hbrk, hcl, hz] at hq
            subst hq
            simp
            omega
          · by_cases hdec : (obs k).newCount < p
            · by_cases hbud : underMax ma (c + 1) = false
              · simp [bumpLoop, h1, h2, hpd, hbrk, hcl, hz, hdec, hbud] at hq
                subst hq
                simp
                omega
              · simp [bumpLoop, h1, h2, hpd, hbrk, hcl, hz, hdec, hbud] at hq
                rcases hq with hq | hq
                · subst hq
                  simp
                  omega
                · exact ih _ _ _ _ _ hq
            · by_cases hcla : (obs k).newCount ≤ i + 1
              · simp [bumpLoop, h1, h2, hpd, hbrk, hcl, hz, hdec, hcla] at hq
                subst hq
                simp
                omega
              · by_cases hbud : underMax ma (c + 1) = false
                · simp [bumpLoop, h1, h2, hpd, hbrk, hcl, hz, hdec, hcla, hbud] at hq
                  subst hq
                  simp
                  omega
                · simp [bumpLoop, h1, h2, hpd, hbrk, hcl, hz, hdec, hcla, hbud] at hq
                  rcases hq with hq | hq
                  · subst hq
                    simp
                    omega
                  · exact ih _ _ _ _ _ hq
        | miss =>
          simp [bumpLoop, h1, h2, hpd, hbrk, hcl] at hq
          rcases hq with hq | hq
          · subst hq
            simp
            omega
          · exact ih _ _ _ _ _ hq
        | errEarly =>
          simp [bumpLoop, h1, h2, hpd, hbrk, hcl] at hq
          rcases hq with hq | hq
          · subst hq
            simp
            omega
          · exact ih _ _ _ _ _ hq
        | errLate =>
          simp [bumpLoop, h1, h2, hpd, hbrk, hcl] at hq
          rcases hq with hq | hq
          · subst hq
            simp
            omega
          · exact ih _ _ _ _ _ hq

/-! ## Concrete observation streams used as witnesses -/

/-- One actionable element that disappears after its press. -/
def obsSingleShot : Nat → IterObs := fun _ => ⟨false, 0, ClickOut.ok, 0⟩

/-- The list-shrink scenario: every press lands, the page path never
diverges, and the successive post-press counts are five, five, four,
four, three, and then zero. -/
def obsShrink : Nat → IterObs := fun k => ⟨false, 0, ClickOut.ok, [5, 5, 4, 4, 3].getD k 0⟩

/-- The pressed-index sequence of the list-shrink scenario run. -/
def shrinkRunPresses : List Nat :=
  match bumpProcess obsShrink none 5 with
  | Except.ok r => pressedIdxs r
  | Except.error _ => []

/-! ## Claims about the bump convergence loop -/

/-- Claim C1: for every initial element count c taken at entry of the
bumpProcess convergence loop (positive, or the loop is never entered)
and every sequence of count observations returned by the subsequent
waits, the loop executes at most c plus two iterations before
returning: the iteration counter is incremented exactly once per pass
and the loop condition requires it to stay below maxIterations, which
is c plus two, so the loop terminates regardless of how the observed
counts fluctuate. -/
theorem bumpProcess_iteration_bound (obs : Nat → IterObs) (maxClicks : Option Nat)
    (c : Nat) (r : BumpResult) (hc : 0 < c)
    (hr : bumpProcess obs maxClicks c = Except.ok r) : r.iters ≤ c + 2 := by
  have hc0 : ¬ c = 0 := Nat.pos_iff_ne_zero.mp hc
  simp only [bumpProcess, hc0, if_false, Except.ok.injEq] at hr
  subst hr
  exact bumpLoop_iters_le_fuel obs (maxAllowedOf maxClicks) (c + 2) c 0 0 0

/-- Witness for claim C1 at a concrete run: one element, pressed once,
vanishing afterwards. -/
theorem bumpProcess_iteration_bound_witness :
    ({ clicked := 1, presses := [(0, 1)], iters := 1 } : BumpResult).iters ≤ 1 + 2 :=
  bumpProcess_iteration_bound obsSingleShot none 1
    { clicked := 1, presses := [(0, 1)], iters := 1 } (by decide) (by rfl)

/-- Claim C2: at every press performed by the bumpProcess convergence
loop (every call to clickNth with index idx), idx is strictly less than
the most recently observed count of elements matching the selector
(prevCount as last updated from safeCount or from the post-press
recount); an index at or above the current count is never pressed, and
after a recount an out-of-range index terminates the loop instead of
being pressed. -/
theorem bumpProcess_index_safety (obs : Nat → IterObs) (maxClicks : Option Nat)
    (c : Nat) (r : BumpResult)
    (hr : bumpProcess obs maxClicks c = Except.ok r) :
    ∀ q ∈ r.presses, q.1 < q.2 := by
  intro q hq
  by_cases hc0 : c = 0
  · simp [bumpProcess, hc0] at hr
  · simp only [bumpProcess, hc0, if_false, Except.ok.injEq] at hr
    subst hr
    exact bumpLoop_press_lt obs (maxAllowedOf maxClicks) (c + 2) c 0 0 0 q hq

/-- Witness for claim C2 at a concrete run: the single press of the
single-element run hit index zero while one element was observed. -/
theorem bumpProcess_index_safety_witness : (0 : Nat) < 1 :=
  bumpProcess_index_safety obsSingleShot none 1
    { clicked := 1, presses := [(0, 1)], iters := 1 } (by rfl) (0, 1) (by simp)

/-- Counterexample to claim C3 as stated: starting from an initial
count of five with successive post-press count observations five, five,
four, four, three, the indices actually pressed begin zero, one, two,
zero, one; the claimed sequence zero, one, zero, one, zero does not
occur, because a count decrease observed after a press resets the index
of the following press, not of the press that triggered it. -/
theorem bumpProcess_shrink_counterexample :
    shrinkRunPresses.take 5 = [0, 1, 2, 0, 1] ∧
      shrinkRunPresses ≠ [0, 1, 0, 1, 0] := by
  exact ⟨by rfl, by decide⟩

/-- Claim C3 amended: starting from an initial count of five, with the
successive post-press count observations five, five, four, four, three
and then zero, the sequence of indices pressed is exactly zero, one,
two, zero, one, zero: a count decrease observed after a press resets
the index used by the next press to zero, and a non-decrease increments
it by one. -/
theorem bumpProcess_shrink_amended :
    shrinkRunPresses = [0, 1, 2, 0, 1, 0] := by rfl

/-! ## Claims about phone normalization and matching -/

theorem findMatch_isSome_iff (my : List String) :
    ∀ ext : List String,
      (findMatch ext my).isSome = true ↔
        ∃ g ∈ ext, ∃ m ∈ my, phonePairMatches g m = true := by
  intro ext
  induction ext with
  | nil => simp [findMatch]
  | cons got rest ih =>
    simp only [findMatch]
    cases hf : my.find? (fun mine => phonePairMatches got mine) with
    | some mine =>
      simp only [Option.isSome_some, true_iff]
      exact ⟨got, List.mem_cons_self got rest, mine,
        List.mem_of_find?_eq_some hf, List.find?_some hf⟩
    | none =>
      rw [ih]
      constructor
      · rintro ⟨g, hg, m, hm, hp⟩
        exact ⟨g, List.mem_cons_of_mem _ hg, m, hm, hp⟩
      · rintro ⟨g, hg, m, hm, hp⟩
        rcases List.mem_cons.mp hg with hh | hg2
        · subst hh
          exact absurd hp (by simpa using List.find?_eq_none.mp hf m hm)
        · exact ⟨g, hg2, m, hm, hp⟩

/-- The claim inputs: the roster number, the two extraction results and
the international phone spellings. -/
def rosterA : List String := ["0501234567"]

/-- Extracted phone texts that should match the roster. -/
def extractedMatch : List String := ["+380501234567"]

/-- Extracted phone texts that should not match the roster. -/
def extractedOther : List String := ["0671112233"]

/-- The normalized roster number reported on a match. -/
def matchedPhone : String := "0501234567"

/-- The normalized foreign number reported on a mismatch. -/
def otherPhone : String := "0671112233"

/-- Formatted international spelling of the roster phone. -/
def phoneIntl : String := "+38 (050) 123-45-67"

/-- Local spelling of the roster phone. -/
def phoneLocal : String := "0501234567"

/-- Country-code spelling of the roster phone. -/
def phoneCountry : String := "380501234567"

/-- Claim C7: for each normalizePhone implementation, the three inputs
(the formatted international spelling, the local spelling and the
country-code spelling) normalize to one and the same canonical string,
covering stripping of non-digits and collapsing of the international
prefixes to a canonical local form. -/
theorem normalizePhone_three_spellings_agree :
    (normalizePhone phoneIntl = normalizePhone phoneLocal ∧
      normalizePhone phoneLocal = normalizePhone phoneCountry) ∧
    (normalizePhoneCanon phoneIntl = normalizePhoneCanon phoneLocal ∧
      normalizePhoneCanon phoneLocal = normalizePhoneCanon phoneCountry) := by
  exact ⟨⟨by decide, by decide⟩, ⟨by decide, by decide⟩⟩

/-- Claim C8: with roster 0501234567, the extracted text +380501234567
matches (ok true) and the extracted text 0671112233 does not, reporting
that first normalized extracted number; in general a roster number
matches an extracted number exactly when, after normalization of both,
one nonempty string contains the other as a substring. -/
theorem checkTopByPhone_match_scenarios :
    checkTopByPhoneMatch extractedMatch rosterA =
        { ok := true, foundPhone := some matchedPhone } ∧
    checkTopByPhoneMatch extractedOther rosterA =
        { ok := false, foundPhone := some otherPhone } ∧
    ∀ texts roster : List String,
      (checkTopByPhoneMatch texts roster).ok = true ↔
        ∃ g ∈ (texts.map normalizePhone).filter (fun s => s != ""),
          ∃ m ∈ (roster.map normalizePhone).filter (fun s => s != ""),
            phonePairMatches g m = true := by
  refine ⟨by decide, by decide, ?_⟩
  intro texts roster
  rw [← findMatch_isSome_iff]
  simp only [checkTopByPhoneMatch]
  cases hf : findMatch ((texts.map normalizePhone).filter (fun s => s != ""))
      ((roster.map normalizePhone).filter (fun s => s != "")) with
  | some m => simp [hf]
  | none => simp [hf]

/-! ## Properties of the notification gateway -/


theorem purge_lastByKey (st : TgState) (siteId : String) (b : Bool) :
    (purgeInfoIds st siteId b).1.lastByKey = st.lastByKey := by
  unfold purgeInfoIds
  split
  · split
    · split <;> rfl
    · rfl
  · rfl

theorem recordSend_lastByKey (st : TgState) (siteId k n : String)
    (ty : MessageType) (now msgId : Nat) :
    (recordSend st siteId k n ty now msgId).lastByKey = setKey k (n, now) st.lastByKey := by
  unfold recordSend
  split <;> rfl

theorem recordSend_info_nonInfo (st : TgState) (siteId k n : String)
    (ty : MessageType) (now msgId : Nat) (hty : ty ≠ MessageType.Info) :
    (recordSend st siteId k n ty now msgId).infoIdsBySiteId = st.infoIdsBySiteId := by
  have hb : (ty == MessageType.Info) = false := by
    simp only [beq_eq_false_iff_ne, ne_eq]
    exact hty
  unfold recordSend
  simp [hb]

theorem recordSend_info_info (st : TgState) (siteId k n : String) (now msgId : Nat) :
    (recordSend st siteId k n MessageType.Info now msgId).infoIdsBySiteId =
      setKey siteId (((List.lookup siteId st.infoIdsBySiteId).getD []) ++ [msgId])
        st.infoIdsBySiteId := by
  unfold recordSend
  simp

theorem purge_not_alert (st : TgState) (siteId : String) :
    purgeInfoIds st siteId false = (st, []) := rfl

theorem purgeInfoIds_spec (st : TgState) (siteId : String) :
    (purgeInfoIds st siteId true).2 = (List.lookup siteId st.infoIdsBySiteId).getD []
    ∧ ((List.lookup siteId st.infoIdsBySiteId).getD [] = [] →
        (purgeInfoIds st siteId true).1.infoIdsBySiteId = st.infoIdsBySiteId)
    ∧ ((List.lookup siteId st.infoIdsBySiteId).getD [] ≠ [] →
        (purgeInfoIds st siteId true).1.infoIdsBySiteId = eraseKey siteId st.infoIdsBySiteId) := by
  unfold purgeInfoIds
  cases hl : List.lookup siteId st.infoIdsBySiteId with
  | none => simp
  | some ids =>
    by_cases he : ids.isEmpty
    · have hids : ids = [] := List.isEmpty_iff.mp he
      subst hids
      simp
    · have hids : ids ≠ [] := fun hh => he (by simp [hh])
      simp [he, hids]

theorem sent_lastByKey (st : TgState) (siteId : String) (topic : Option String)
    (text : String) (opts : SiteMessageOptions) (ty : MessageType) (now msgId : Nat)
    (hs : opts.silent = false)
    (h : (sendSiteMessage true st siteId topic text opts ty now msgId).sent = true) :
    List.lookup (keyOf siteId topic)
        (sendSiteMessage true st siteId topic text opts ty now msgId).state.lastByKey
      = some (normalizeText text, now) := by
  unfold sendSiteMessage at h ⊢
  rw [hs] at h ⊢
  by_cases hdup : isDuplicate (purgeInfoIds st siteId
      (ty == MessageType.Alert || ty == MessageType.Error)).1 (keyOf siteId topic)
      (normalizeText text) ty opts.force now = true
  · simp [hdup] at h
  · simp only [Bool.false_eq_true, Bool.true_eq_false, if_false, hdup] at h ⊢
    simp only [recordSend_lastByKey, purge_lastByKey]
    exact lookup_setKey_self _ _ _

theorem sent_info_appends (st : TgState) (siteId : String) (topic : Option String)
    (text : String) (opts : SiteMessageOptions) (now msgId : Nat)
    (hs : opts.silent = false)
    (h : (sendSiteMessage true st siteId topic text opts MessageType.Info now msgId).sent
      = true) :
    List.lookup siteId (sendSiteMessage true st siteId topic text opts
        MessageType.Info now msgId).state.infoIdsBySiteId
      = some (((List.lookup siteId st.infoIdsBySiteId).getD []) ++ [msgId]) := by
  unfold sendSiteMessage at h ⊢
  rw [hs] at h ⊢
  by_cases hdup : isDuplicate (purgeInfoIds st siteId
      (MessageType.Info == MessageType.Alert || MessageType.Info == MessageType.Error)).1
      (keyOf siteId topic) (normalizeText text) MessageType.Info opts.force now = true
  · simp [hdup] at h
  · simp only [Bool.false_eq_true, Bool.true_eq_false, if_false, hdup] at h ⊢
    have hae : (MessageType.Info == MessageType.Alert
        || MessageType.Info == MessageType.Error) = false := rfl
    rw [hae, purge_not_alert]
    rw [recordSend_info_info]
    exact lookup_setKey_self _ _ _

theorem alert_call_components (st : TgState) (siteId : String) (topic : Option String)
    (text : String) (opts : SiteMessageOptions) (ty : MessageType) (now msgId : Nat)
    (hs : opts.silent = false) (hty : ty ≠ MessageType.Info) :
    (sendSiteMessage true st siteId topic text opts ty now msgId).deleted
        = (purgeInfoIds st siteId (ty == MessageType.Alert || ty == MessageType.Error)).2
    ∧ (sendSiteMessage true st siteId topic text opts ty now msgId).state.infoIdsBySiteId
        = (purgeInfoIds st siteId
            (ty == MessageType.Alert || ty == MessageType.Error)).1.infoIdsBySiteId := by
  unfold sendSiteMessage
  rw [hs]
  by_cases hdup : isDuplicate (purgeInfoIds st siteId
      (ty == MessageType.Alert || ty == MessageType.Error)).1 (keyOf siteId topic)
      (normalizeText text) ty opts.force now = true
  · simp [hdup]
  · simp [hdup, recordSend_info_nonInfo _ _ _ _ _ _ _ hty]

theorem nonInfo_never_extends (st : TgState) (siteId : String) (topic : Option String)
    (text : String) (opts : SiteMessageOptions) (ty : MessageType) (now msgId : Nat)
    (hty : ty ≠ MessageType.Info) :
    List.lookup siteId (sendSiteMessage true st siteId topic text opts
        ty now msgId).state.infoIdsBySiteId
      = List.lookup siteId st.infoIdsBySiteId
    ∨ List.lookup siteId (sendSiteMessage true st siteId topic text opts
        ty now msgId).state.infoIdsBySiteId = none := by
  by_cases hs : opts.silent = true
  · left
    unfold sendSiteMessage
    simp [hs]
  · have hs' : opts.silent = false := by simpa using hs
    rcases alert_call_components st siteId topic text opts ty now msgId hs' hty with ⟨_, hstate⟩
    rw [hstate]
    by_cases hae : (ty == MessageType.Alert || ty == MessageType.Error) = true
    · rw [hae]
      rcases purgeInfoIds_spec st siteId with ⟨_, hemp, hnemp⟩
      by_cases hcase : (List.lookup siteId st.infoIdsBySiteId).getD [] = []
      · left
        rw [hemp hcase]
      · right
        rw [hnemp hcase]
        exact lookup_eraseKey_self _ _
    · left
      have hae2 : (ty == MessageType.Alert || ty == MessageType.Error) = false := by
        simpa using hae
      rw [hae2, purge_not_alert]

/-- Claim C4: for every site id, topic and text, when sendSiteMessage is
called twice with the same normalized (whitespace-collapsed, trimmed)
text and force not set, and the second call occurs within the two-hour
cooldown window opened by the first delivered call, or the second call
is informational regardless of elapsed time as long as the normalized
text is identical, the second call returns false and performs no
message delivery; a force option bypasses this duplicate suppression
unconditionally. -/
theorem sendSiteMessage_dedup_window
    (st : TgState) (siteId : String) (topic : Option String) (t1 t2 : String)
    (o1 : SiteMessageOptions) (ty1 ty2 : MessageType) (now1 now2 id1 id2 : Nat)
    (p2 : Option String) (hd2 : Bool)
    (hs1 : o1.silent = false)
    (hnorm : normalizeText t1 = normalizeText t2)
    (hwin : now2 - now1 < DUPLICATE_COOLDOWN_MS ∨ ty2 = MessageType.Info) :
    (sendSiteMessage true st siteId topic t1 o1 ty1 now1 id1).sent = true →
    ((sendSiteMessage true (sendSiteMessage true st siteId topic t1 o1 ty1 now1 id1).state
        siteId topic t2 ⟨false, false, p2, hd2⟩ ty2 now2 id2).sent = false ∧
      (sendSiteMessage true (sendSiteMessage true st siteId topic t1 o1 ty1 now1 id1).state
        siteId topic t2 ⟨false, false, p2, hd2⟩ ty2 now2 id2).delivered = none) ∧
    ∀ (st' : TgState) (p' : Option String) (hh : Bool) (ty' : MessageType) (now' id' : Nat),
      (sendSiteMessage true st' siteId topic t2 ⟨true, false, p', hh⟩ ty' now' id').sent = true := by
  intro h1
  have hL := sent_lastByKey st siteId topic t1 o1 ty1 now1 id1 hs1 h1
  set st1 := (sendSiteMessage true st siteId topic t1 o1 ty1 now1 id1).state with hst1
  have hdup : isDuplicate
      (purgeInfoIds st1 siteId (ty2 == MessageType.Alert || ty2 == MessageType.Error)).1
      (keyOf siteId topic) (normalizeText t2) ty2 false now2 = true := by
    simp [isDuplicate, purge_lastByKey, hL, ← hnorm]
    exact hwin
  refine ⟨⟨?_, ?_⟩, ?_⟩
  · conv_lhs => unfold sendSiteMessage
    simp [hdup]
  · conv_lhs => unfold sendSiteMessage
    simp [hdup]
  · intro st' p' hh ty' now' id'
    unfold sendSiteMessage
    simp [isDuplicate]


/-- Claim C5: one informational sendSiteMessage delivered for a site
appends its delivery identifier to that site's informational list; a
following Alert or Error sendSiteMessage for the site attempts
retraction of every recorded informational message id and leaves the
site's informational list empty (the entry is removed); and a
non-informational send never extends the list. -/
theorem info_then_alert_supersession
    (st : TgState) (siteId : String) (topic1 topic2 : Option String) (t1 t2 : String)
    (o1 o2 : SiteMessageOptions) (ty2 : MessageType) (now1 now2 id1 id2 : Nat)
    (hs1 : o1.silent = false) (hs2 : o2.silent = false)
    (hty : ty2 = MessageType.Alert ∨ ty2 = MessageType.Error)
    (h1 : (sendSiteMessage true st siteId topic1 t1 o1 MessageType.Info now1 id1).sent = true) :
    List.lookup siteId (sendSiteMessage true st siteId topic1 t1 o1
        MessageType.Info now1 id1).state.infoIdsBySiteId
      = some (((List.lookup siteId st.infoIdsBySiteId).getD []) ++ [id1])
    ∧ (sendSiteMessage true (sendSiteMessage true st siteId topic1 t1 o1
          MessageType.Info now1 id1).state siteId topic2 t2 o2 ty2 now2 id2).deleted
      = ((List.lookup siteId st.infoIdsBySiteId).getD []) ++ [id1]
    ∧ List.lookup siteId (sendSiteMessage true (sendSiteMessage true st siteId topic1 t1 o1
          MessageType.Info now1 id1).state siteId topic2 t2 o2 ty2
          now2 id2).state.infoIdsBySiteId = none
    ∧ ∀ (st' : TgState) (topic' : Option String) (t' : String) (o' : SiteMessageOptions)
        (ty' : MessageType) (now' id' : Nat), ty' ≠ MessageType.Info →
        (List.lookup siteId (sendSiteMessage true st' siteId topic' t' o' ty'
              now' id').state.infoIdsBySiteId
            = List.lookup siteId st'.infoIdsBySiteId
          ∨ List.lookup siteId (sendSiteMessage true st' siteId topic' t' o' ty'
              now' id').state.infoIdsBySiteId = none) := by
  have htyI : ty2 ≠ MessageType.Info := by
    rcases hty with h | h <;> subst h <;> simp
  have hae : (ty2 == MessageType.Alert || ty2 == MessageType.Error) = true := by
    rcases hty with h | h <;> subst h <;> rfl
  have happ := sent_info_appends st siteId topic1 t1 o1 now1 id1 hs1 h1
  set st1 := (sendSiteMessage true st siteId topic1 t1 o1 MessageType.Info now1 id1).state
    with hst1
  rcases alert_call_components st1 siteId topic2 t2 o2 ty2 now2 id2 hs2 htyI with ⟨hdel, hstate⟩
  rcases purgeInfoIds_spec st1 siteId with ⟨hd2, hemp, hnemp⟩
  have hfull : (List.lookup siteId st1.infoIdsBySiteId).getD []
      = ((List.lookup siteId st.infoIdsBySiteId).getD []) ++ [id1] := by
    rw [happ]
    rfl
  have hne : (List.lookup siteId st1.infoIdsBySiteId).getD [] ≠ [] := by
    rw [hfull]
    simp
  refine ⟨happ, ?_, ?_, ?_⟩
  · rw [hdel, hae, hd2, hfull]
  · rw [hstate, hae, hnemp hne]
    exact lookup_eraseKey_self _ _
  · intro st' topic' t' o' ty' now' id' hty'
    exact nonInfo_never_extends st' siteId topic' t' o' ty' now' id' hty'

/-- Claim C10 (implicit): with a configured bot and chat and silent not
set, the purge of the site's stored informational message ids runs
before the duplicate-suppression check, so every Alert or Error call
attempts deletion of each recorded informational id for the site and
leaves that site's informational list empty, independently of whether
the call itself is then suppressed as a duplicate and returns false
with no new delivery. -/
theorem alert_purges_before_dedup (st : TgState) (siteId : String) (topic : Option String)
    (text : String) (opts : SiteMessageOptions) (ty : MessageType) (now msgId : Nat)
    (hs : opts.silent = false)
    (hty : ty = MessageType.Alert ∨ ty = MessageType.Error) :
    (sendSiteMessage true st siteId topic text opts ty now msgId).deleted
        = (List.lookup siteId st.infoIdsBySiteId).getD []
    ∧ (List.lookup siteId (sendSiteMessage true st siteId topic text opts ty
          now msgId).state.infoIdsBySiteId).getD [] = [] := by
  have htyI : ty ≠ MessageType.Info := by
    rcases hty with h | h <;> subst h <;> simp
  have hae : (ty == MessageType.Alert || ty == MessageType.Error) = true := by
    rcases hty with h | h <;> subst h <;> rfl
  rcases alert_call_components st siteId topic text opts ty now msgId hs htyI with ⟨hdel, hstate⟩
  rcases purgeInfoIds_spec st siteId with ⟨hd2, hemp, hnemp⟩
  constructor
  · rw [hdel, hae, hd2]
  · rw [hstate, hae]
    by_cases hcase : (List.lookup siteId st.infoIdsBySiteId).getD [] = []
    · rw [hemp hcase, hcase]
    · rw [hnemp hcase, lookup_eraseKey_self]
      rfl

/-! ## Properties of the scheduler latch and the browser pool -/


theorem append_ne_of_tail_ne (sid a b : String) (h : a ≠ b) : sid ++ a ≠ sid ++ b := by
  intro he
  apply h
  have hd := congrArg String.data he
  simp only [String.data_append] at hd
  exact String.ext (List.append_cancel_left hd)

theorem selKey_ne_badKey (siteId : String) : badKey siteId ≠ selKey siteId := by
  unfold badKey selKey
  exact append_ne_of_tail_ne siteId _ _ (by decide)

theorem getFlag_setKey_self (st : NotifState) (k : String) (b : Bool) :
    getFlag (setKey k b st) k = b := by
  unfold getFlag
  rw [lookup_setKey_self]
  rfl

theorem getFlag_setKey_other (st : NotifState) (k k' : String) (b : Bool) (h : k' ≠ k) :
    getFlag (setKey k b st) k' = getFlag st k' := by
  unfold getFlag
  rw [lookup_setKey_ne _ _ _ h]

theorem getFlag_clearMark_other (st : NotifState) (k k' : String) (h : k' ≠ k) :
    getFlag (clearMark st k) k' = getFlag st k' := by
  unfold clearMark
  split
  · exact getFlag_setKey_other st k k' false h
  · rfl

theorem getFlag_clearMark_self (st : NotifState) (k : String) :
    getFlag (clearMark st k) k = false := by
  unfold clearMark
  split
  · exact getFlag_setKey_self st k false
  · rename_i h
    simpa using h

/-- The latch state and messages of a monitor selector-failure tick when
the latch is unset: one alert, latch set. -/
theorem tick_selector_first (siteId : String) (kind : SiteKind) (st : NotifState)
    (hsel : getFlag st (selKey siteId) = false) :
    (tick siteId kind true st WorkResult.selectorFail).2 = [TickMsg.selectorAlert]
    ∧ getFlag (tick siteId kind true st WorkResult.selectorFail).1 (selKey siteId) = true := by
  have hsel1 : getFlag (clearMark st (badKey siteId)) (selKey siteId) = false := by
    rw [getFlag_clearMark_other st _ _ (Ne.symm (selKey_ne_badKey siteId))]
    exact hsel
  unfold tick markOnce
  cases kind <;> simp [hsel1, getFlag_setKey_self]

theorem tick_selector_second (siteId : String) (kind : SiteKind) (st : NotifState)
    (hsel : getFlag st (selKey siteId) = true) :
    (tick siteId kind true st WorkResult.selectorFail).2 = []
    ∧ getFlag (tick siteId kind true st WorkResult.selectorFail).1 (selKey siteId) = true := by
  have hsel1 : getFlag (clearMark st (badKey siteId)) (selKey siteId) = true := by
    rw [getFlag_clearMark_other st _ _ (Ne.symm (selKey_ne_badKey siteId))]
    exact hsel
  unfold tick markOnce
  cases kind <;> simp [hsel1]

theorem tick_monitor_recovery (siteId : String) (st : NotifState) (pos : Bool)
    (hsel : getFlag st (selKey siteId) = true) :
    ((tick siteId SiteKind.monitor true st (WorkResult.ok pos)).2).count TickMsg.recoveryNotice = 1
    ∧ getFlag (tick siteId SiteKind.monitor true st (WorkResult.ok pos)).1 (selKey siteId)
        = false := by
  have hsel1 : getFlag (clearMark st (badKey siteId)) (selKey siteId) = true := by
    rw [getFlag_clearMark_other st _ _ (Ne.symm (selKey_ne_badKey siteId))]
    exact hsel
  unfold tick
  simp [hsel1, getFlag_clearMark_self]
  cases pos <;> simp [List.count_cons]

theorem tick_bump_success_keeps_latch (siteId : String) (st : NotifState) (pos : Bool)
    (hsel : getFlag st (selKey siteId) = true) :
    ((tick siteId SiteKind.bump true st (WorkResult.ok pos)).2).count TickMsg.recoveryNotice = 0
    ∧ getFlag (tick siteId SiteKind.bump true st (WorkResult.ok pos)).1 (selKey siteId)
        = true := by
  have hsel1 : getFlag (clearMark st (badKey siteId)) (selKey siteId) = true := by
    rw [getFlag_clearMark_other st _ _ (Ne.symm (selKey_ne_badKey siteId))]
    exact hsel
  unfold tick
  simp [hsel1]


/-- Claim C6 amended: for every site, the first scheduler tick failing
with SelectorNotFoundError sends exactly one alert and sets the
selector latch, and a second identical failure on the next tick sends
no alert; for a monitor site a subsequent successful tick clears the
latch and sends exactly one recovery notice, but for a bump site a
successful tick sends no recovery notice and leaves the latch set. -/
theorem tick_latch_lifecycle (siteId : String) (st : NotifState) (kind : SiteKind)
    (pos : Bool) (hsel : getFlag st (selKey siteId) = false) :
    (tick siteId kind true st WorkResult.selectorFail).2 = [TickMsg.selectorAlert]
    ∧ getFlag (tick siteId kind true st WorkResult.selectorFail).1 (selKey siteId) = true
    ∧ (tick siteId kind true (tick siteId kind true st WorkResult.selectorFail).1
        WorkResult.selectorFail).2 = []
    ∧ ((tick siteId SiteKind.monitor true
          (tick siteId kind true st WorkResult.selectorFail).1
          (WorkResult.ok pos)).2.count TickMsg.recoveryNotice = 1
        ∧ getFlag (tick siteId SiteKind.monitor true
            (tick siteId kind true st WorkResult.selectorFail).1
            (WorkResult.ok pos)).1 (selKey siteId) = false)
    ∧ ((tick siteId SiteKind.bump true
          (tick siteId kind true st WorkResult.selectorFail).1
          (WorkResult.ok pos)).2.count TickMsg.recoveryNotice = 0
        ∧ getFlag (tick siteId SiteKind.bump true
            (tick siteId kind true st WorkResult.selectorFail).1
            (WorkResult.ok pos)).1 (selKey siteId) = true) := by
  obtain ⟨hm1, hf1⟩ := tick_selector_first siteId kind st hsel
  obtain ⟨hm2, _⟩ := tick_selector_second siteId kind _ hf1
  obtain ⟨hr1, hr2⟩ := tick_monitor_recovery siteId _ pos hf1
  obtain ⟨hb1, hb2⟩ := tick_bump_success_keeps_latch siteId _ pos hf1
  exact ⟨hm1, hf1, hm2, ⟨hr1, hr2⟩, hb1, hb2⟩

/-- Counterexample to claim C6 as stated: for a bump site, after a
selector failure has latched, a successful tick emits no recovery
notice and the selector latch stays set, so the lifecycle claimed for
every site (monitor or bump) fails for bump sites. -/
theorem tick_bump_no_recovery_counterexample :
    (tick "s" SiteKind.bump true
        (tick "s" SiteKind.bump true [] WorkResult.selectorFail).1
        (WorkResult.ok true)).2.count TickMsg.recoveryNotice = 0
    ∧ getFlag (tick "s" SiteKind.bump true
        (tick "s" SiteKind.bump true [] WorkResult.selectorFail).1
        (WorkResult.ok true)).1 (selKey "s") = true := by
  decide

/-- Claim C9: when N concurrent getBrowser calls for the same site id
arrive while no live session exists for that key, exactly one
underlying launch is started: the synchronous prefix of each call runs
atomically on the event loop, the first starts the launch and stores
the in-flight promise in the pool record, and every later call finds
that promise and awaits it, so at most one creation per site id is in
flight. -/
theorem getBrowser_single_flight (s : PoolState) (n : Nat)
    (hn : 1 ≤ n) (h0 : s.launches = 0)
    (hrec : s.record = none ∨ s.record = some ⟨false, false⟩) :
    (getBrowserAcquire^[n] s).launches = 1 := by
  obtain ⟨m, rfl⟩ : ∃ m, n = m + 1 := ⟨n - 1, by omega⟩
  have h1 : getBrowserAcquire s = ⟨some ⟨false, true⟩, 1⟩ := by
    rcases hrec with h | h
    · simp [getBrowserAcquire, h, h0]
    · simp [getBrowserAcquire, h, h0]
  have hfix : getBrowserAcquire ⟨some ⟨false, true⟩, 1⟩ = ⟨some ⟨false, true⟩, 1⟩ := by
    simp [getBrowserAcquire]
  rw [Function.iterate_succ_apply, h1, Function.iterate_fixed hfix]


/-! ## Concrete gateway and scheduler inputs used by the witnesses -/

/-- Default option bag: not forced, not silent, no prefix, header on. -/
def optsPlain : SiteMessageOptions := ⟨false, false, none, true⟩

/-- An empty gateway state. -/
def emptyTg : TgState := ⟨[], []⟩

/-- Demo site id. -/
def demoSite : String := "site"

/-- Demo topic for checks. -/
def demoTopicA : Option String := some "check"

/-- Demo topic for bumps. -/
def demoTopicB : Option String := some "bump"

/-- Demo message text. -/
def demoText : String := "position lost"

/-- The same demo text with doubled whitespace (same normalized form). -/
def demoText2 : String := "position  lost"

/-- Demo informational text. -/
def demoInfoText : String := "still fine"

/-- Demo alert text. -/
def demoAlertText : String := "position lost now"

/-- A gateway state holding one recorded informational message id. -/
def demoTg : TgState := ⟨[], [(demoSite, [7])]⟩

/-- Witness for claim C4 at concrete inputs: the repeated text is
suppressed a second time within the cooldown window. -/
theorem sendSiteMessage_dedup_window_witness :
    (sendSiteMessage true (sendSiteMessage true emptyTg demoSite demoTopicA demoText optsPlain
        MessageType.Unknown 0 1).state demoSite demoTopicA demoText2 ⟨false, false, none, true⟩
        MessageType.Unknown 1000 2).sent = false :=
  (sendSiteMessage_dedup_window emptyTg demoSite demoTopicA demoText demoText2 optsPlain
    MessageType.Unknown MessageType.Unknown 0 1000 1 2 none true rfl (by decide)
    (Or.inl (by decide)) (by decide)).1.1

/-- Witness for claim C5 at concrete inputs: after an informational send
and an alert send, the informational list of the site is gone. -/
theorem info_then_alert_supersession_witness :
    List.lookup demoSite (sendSiteMessage true (sendSiteMessage true emptyTg demoSite demoTopicA
        demoInfoText optsPlain MessageType.Info 0 11).state demoSite demoTopicB demoAlertText
        optsPlain MessageType.Alert 5 12).state.infoIdsBySiteId = none :=
  (info_then_alert_supersession emptyTg demoSite demoTopicA demoTopicB demoInfoText demoAlertText
    optsPlain optsPlain MessageType.Alert 0 5 11 12 rfl rfl (Or.inl rfl) (by decide)).2.2.1

/-- Witness for claim C10 at concrete inputs: an Error send attempts
deletion of the recorded informational id. -/
theorem alert_purges_before_dedup_witness :
    (sendSiteMessage true demoTg demoSite demoTopicA demoText optsPlain
        MessageType.Error 0 21).deleted
      = (List.lookup demoSite demoTg.infoIdsBySiteId).getD [] :=
  (alert_purges_before_dedup demoTg demoSite demoTopicA demoText optsPlain
    MessageType.Error 0 21 rfl (Or.inr rfl)).1

/-- Witness for claim C6 at concrete inputs: a first monitor selector
failure from a clean latch store emits exactly the one alert. -/
theorem tick_latch_lifecycle_witness :
    (tick "m" SiteKind.monitor true [] WorkResult.selectorFail).2 = [TickMsg.selectorAlert] :=
  (tick_latch_lifecycle "m" [] SiteKind.monitor true (by decide)).1

/-- Witness for claim C9 at concrete inputs: three acquisitions from an
empty pool start exactly one launch. -/
theorem getBrowser_single_flight_witness :
    (getBrowserAcquire^[3] (⟨none, 0⟩ : PoolState)).launches = 1 :=
  getBrowser_single_flight ⟨none, 0⟩ 3 (by decide) rfl (Or.inl rfl)

end SiteDetector
